import Mathlib

/-!
Verification of the confutil helper library (record lookup, settings
application, chart-of-accounts / fiscal-year bootstrap, user access levels).

The library is a thin client of a host ORM.  We embed it shallowly:

* the host's behaviour (search results, computed defaults, assigned ids,
  onchange values, field metadata, the unconfigured-company report) is a
  `Host` structure of oracle functions;
* Python dictionaries are association lists over `String` keys with
  dict-style update semantics (`alist_set` erases any previous binding);
* each library function is a Lean function returning `Except Err`; on
  success it also returns the ordered list of host operations (`Op`) that
  the Python code would have issued, so that frame / ordering properties
  are statements about that trace;
* raised Python exceptions are `Except.error`; the trace of an aborted run
  is discarded, as the claims only constrain completed runs.
-/

namespace Confutil

/-- Python values that flow through these functions: `None`, booleans,
integers (record ids), strings, lists and tuples. -/
inductive Val where
  | vnone : Val
  | vbool : Bool → Val
  | vint : Int → Val
  | vstr : String → Val
  | vlist : List Val → Val
  | vtup : List Val → Val

/-- A Python dict with string keys, as an association list. -/
abbrev Dict := List (String × Val)

/-- A search domain: a list of (field, operator, value) conditions. -/
abbrev Domain := List (String × String × Val)

/-- First-match lookup in an association list (Python `d[k]` / `d.get(k)`;
with dict-style insertion via `alist_set` there is at most one binding). -/
def alist_lookup {α : Type} : List (String × α) → String → Option α
  | [], _ => Option.none
  | (k1, v) :: rest, k => if k1 = k then some v else alist_lookup rest k

/-- Python `d[k] = v`: drop any previous binding of `k`, bind `k` to `v`. -/
def alist_set {α : Type} (d : List (String × α)) (k : String) (v : α) : List (String × α) :=
  d.filter (fun p => !(p.1 == k)) ++ [(k, v)]

/-- Python `d.update(ch)`: set every binding of `ch` in order. -/
def alist_update {α : Type} (d ch : List (String × α)) : List (String × α) :=
  ch.foldl (fun acc p => alist_set acc p.1 p.2) d

/-- Python `d.pop(k)` / `del d[k]` leftover dict: all bindings except `k`. -/
def alist_erase {α : Type} (d : List (String × α)) (k : String) : List (String × α) :=
  d.filter (fun p => !(p.1 == k))

def dict_lookup (d : Dict) (k : String) : Option Val := alist_lookup d k

def dict_set (d : Dict) (k : String) (v : Val) : Dict := alist_set d k v

def dict_update (d ch : Dict) : Dict := alist_update d ch

def dict_erase (d : Dict) (k : String) : Dict := alist_erase d k

/-- The two domain-specific exceptions (each carries the offending search
domain, standing for the formatted message), plus Python's `KeyError`
raised by a failing dict subscript. -/
inductive Err where
  | noRecords : Domain → Err
  | tooManyRecords : Domain → Err
  | keyError : String → Err

/-- One call issued against the host registry. -/
inductive Op where
  | search : String → Domain → Op
  | defaultGet : String → List String → Op
  | create : String → Dict → Op
  | write : String → List Int → Dict → Op
  | executeOp : String → List Int → Op
  | onchangeChartTemplateId : Int → Op
  | createPeriod : String → List Int → Op
  | getUnconfiguredCmp : Op

/-- The host ORM, as oracles: what `search` returns for a model and domain,
what `default_get` computes, which id `create` assigns, what the chart
wizard's onchange returns (its `'value'` sub-dict), `fields_get` metadata
as (field name, form label) pairs, and the ids reported by
`account.installer.get_unconfigured_cmp`. -/
structure Host where
  search : String → Domain → List Int
  default_get : String → List String → Dict
  create_id : String → Dict → Int
  onchange_chart_value : Int → Dict
  fields_get : String → List (String × String)
  unconfigured_cmp : List Int

/-- `Lookup.maybe_id`: search, then return `none` for zero hits, the sole
id for one hit, and raise `TooManyRecordsError` for several. -/
def maybe_id (host : Host) (model : String) (domain : Domain) :
    Except Err (Option Int × List Op) :=
  let ids := host.search model domain
  if ids.length > 1 then
    Except.error (Err.tooManyRecords domain)
  else if ids.length = 0 then
    Except.ok (Option.none, [Op.search model domain])
  else
    Except.ok (some (ids.headD 0), [Op.search model domain])

/-- `Lookup.exactly_one_id`: like `maybe_id` but absence raises
`NoRecordsError` instead of returning `None`. -/
def exactly_one_id (host : Host) (model : String) (domain : Domain) :
    Except Err (Int × List Op) :=
  match maybe_id host model domain with
  | Except.error e => Except.error e
  | Except.ok (Option.none, _) => Except.error (Err.noRecords domain)
  | Except.ok (some i, tr) => Except.ok (i, tr)

/-- The search domain `set_settings` builds: scoped to the company when one
is given, otherwise empty. -/
def settings_domain : Option Int → Domain
  | some cid => [("company_id", "=", Val.vint cid)]
  | Option.none => []

/-- The dict `set_settings` passes to `create` on its creation branch:
computed defaults for every field of the form, overlaid with the requested
changes, then (when scoped) the company id. -/
def settings_create_data (host : Host) (settings_model_name : String)
    (changes : Dict) (company : Option Int) : Dict :=
  let field_names := (host.fields_get settings_model_name).map Prod.fst
  let defaults := host.default_get settings_model_name field_names
  let data := dict_update defaults changes
  match company with
  | some cid => dict_set data "company_id" (Val.vint cid)
  | Option.none => data

/-- `set_settings`: find the (optionally company-scoped) settings record;
create it from defaults + changes if absent, else write just the changes;
then call its `execute` step. -/
def set_settings (host : Host) (settings_model_name : String)
    (changes : Dict) (company : Option Int) : Except Err (List Op) :=
  let domain := settings_domain company
  match maybe_id host settings_model_name domain with
  | Except.error e => Except.error e
  | Except.ok (settings_id, tr) =>
    match settings_id with
    | Option.none =>
      let field_names := (host.fields_get settings_model_name).map Prod.fst
      let data := settings_create_data host settings_model_name changes company
      let new_id := host.create_id settings_model_name data
      Except.ok (tr ++
        [Op.defaultGet settings_model_name field_names,
         Op.create settings_model_name data,
         Op.executeOp settings_model_name [new_id]])
    | some sid =>
      Except.ok (tr ++
        [Op.write settings_model_name [sid] changes,
         Op.executeOp settings_model_name [sid]])

/-- A concrete host whose every search is empty (used by witnesses). -/
def host_empty : Host :=
  { search := fun _ _ => []
    default_get := fun _ _ => []
    create_id := fun _ _ => 1
    onchange_chart_value := fun _ => []
    fields_get := fun _ => []
    unconfigured_cmp := [] }

/-- A concrete host whose every search yields exactly id 42. -/
def host_one : Host :=
  { host_empty with search := fun _ _ => [42] }

/-- A concrete host whose every search yields two ids. -/
def host_two : Host :=
  { host_empty with search := fun _ _ => [7, 8] }

/-- A concrete host for the settings claims: empty searches, a two-field
settings form with computed defaults, created records get id 55. -/
def host_settings : Host :=
  { host_empty with
    fields_get := fun _ => [("company_id", "Company"), ("default_sale_tax", "Default sale tax")]
    default_get := fun _ _ => [("company_id", Val.vint 1), ("default_sale_tax", Val.vnone)]
    create_id := fun _ _ => 55 }

/-- Like `host_settings` but every search finds the existing record 77. -/
def host_settings_existing : Host :=
  { host_settings with search := fun _ _ => [77] }

/-- `today.strftime('%Y')` for a Gregorian year: its decimal digits (years
in 1000..9999 render without padding). -/
def year_str (year : Nat) : String := toString year

/-- The `[(0, False, i) for i in bank_accounts_spec]` comprehension in
`setup_chart_of_accounts`. -/
def bank_account_entries (spec : List Val) : List Val :=
  spec.map (fun i => Val.vtup [Val.vint 0, Val.vbool false, i])

/-- The dict `setup_chart_of_accounts` passes to `create`: the wizard's
defaults with `bank_accounts_id` popped, overlaid with the template /
company / bank-accounts triple list, then the onchange values, then (when
a non-zero `code_digits` is given — Python truthiness) `code_digits`.
`spec` is the list popped from the defaults under `bank_accounts_id`. -/
def chart_create_data (host : Host) (company_id chart_template_id : Int)
    (code_digits : Option Int) (spec : List Val) : Dict :=
  let defaults := host.default_get "wizard.multi.charts.accounts"
    ["bank_accounts_id", "currency_id"]
  let popped := dict_erase defaults "bank_accounts_id"
  let data := dict_update popped
    [("chart_template_id", Val.vint chart_template_id),
     ("company_id", Val.vint company_id),
     ("bank_accounts_id", Val.vlist (bank_account_entries spec))]
  let data2 := dict_update data (host.onchange_chart_value chart_template_id)
  match code_digits with
  | some d => if d = 0 then data2 else dict_update data2 [("code_digits", Val.vint d)]
  | Option.none => data2

/-- `setup_chart_of_accounts`: fetch the wizard defaults, pop the bank
accounts spec, build the creation dict (the onchange argument
`data['chart_template_id']` is the template id just stored), create the
wizard record and execute it.  `none` models the host-level exception
Python raises when the defaults carry no list under `bank_accounts_id`
(`KeyError` from `pop`, or iterating a non-list). -/
def setup_chart_of_accounts (host : Host) (company_id chart_template_id : Int)
    (code_digits : Option Int) : Option (List Op) :=
  let defaults := host.default_get "wizard.multi.charts.accounts"
    ["bank_accounts_id", "currency_id"]
  match dict_lookup defaults "bank_accounts_id" with
  | some (Val.vlist spec) =>
    let data := chart_create_data host company_id chart_template_id code_digits spec
    let conf_id := host.create_id "wizard.multi.charts.accounts" data
    some [Op.defaultGet "wizard.multi.charts.accounts" ["bank_accounts_id", "currency_id"],
      Op.onchangeChartTemplateId chart_template_id,
      Op.create "wizard.multi.charts.accounts" data,
      Op.executeOp "wizard.multi.charts.accounts" [conf_id]]
  | _ => Option.none

/-- The dict `create_fiscal_year` passes to `create`: the model's defaults
for `state` and `company_id`, overlaid with the company, name, code and
date range. -/
def fiscal_year_data (host : Host) (company_id : Int)
    (name code start_date end_date : String) : Dict :=
  dict_update (host.default_get "account.fiscalyear" ["state", "company_id"])
    [("company_id", Val.vint company_id),
     ("name", Val.vstr name),
     ("code", Val.vstr code),
     ("date_start", Val.vstr start_date),
     ("date_stop", Val.vstr end_date)]

/-- `create_fiscal_year`: create the `account.fiscalyear` record and then
generate its periods. -/
def create_fiscal_year (host : Host) (company_id : Int)
    (name code start_date end_date : String) : List Op :=
  let fy_data := fiscal_year_data host company_id name code start_date end_date
  let fy_id := host.create_id "account.fiscalyear" fy_data
  [Op.defaultGet "account.fiscalyear" ["state", "company_id"],
   Op.create "account.fiscalyear" fy_data,
   Op.createPeriod "account.fiscalyear" [fy_id]]

/-- `setup_company_accounts`: ask the host for the unconfigured companies;
if this company is among them, install the chart of accounts and then
create the fiscal year — name `%Y`, code `FY%Y`, running 1 Jan to 31 Dec
of the current year — otherwise do nothing further. -/
def setup_company_accounts (host : Host) (today_year : Nat)
    (company_id chart_template_id : Int) (code_digits : Option Int) :
    Option (List Op) :=
  let unconfigured_companies := host.unconfigured_cmp
  if company_id ∈ unconfigured_companies then
    match setup_chart_of_accounts host company_id chart_template_id code_digits with
    | Option.none => Option.none
    | some chart_ops =>
      let fy_name := year_str today_year
      let fy_code := "FY" ++ fy_name
      let account_start := year_str today_year ++ "-01-01"
      let account_end := year_str today_year ++ "-12-31"
      some (Op.getUnconfiguredCmp :: chart_ops ++
        create_fiscal_year host company_id fy_name fy_code account_start account_end)
  else some [Op.getUnconfiguredCmp]

/-- Extract the `name` value of the first `account.fiscalyear` record
created in a trace. -/
def fiscal_year_created_name : List Op → Option Val
  | [] => Option.none
  | Op.create m d :: rest =>
    if m = "account.fiscalyear" then dict_lookup d "name"
    else fiscal_year_created_name rest
  | _ :: rest => fiscal_year_created_name rest

/-- A concrete host for the bootstrap claims: company 1 unconfigured,
well-typed chart-wizard defaults, fiscal-year defaults, created id 3. -/
def host_accounts : Host :=
  { search := fun _ _ => []
    default_get := fun model _ =>
      if model = "wizard.multi.charts.accounts" then
        [("bank_accounts_id", Val.vlist [Val.vstr "Bank"]), ("currency_id", Val.vint 10)]
      else
        [("state", Val.vstr "draft"), ("company_id", Val.vint 1)]
    create_id := fun _ _ => 3
    onchange_chart_value := fun _ => [("code_digits", Val.vint 6)]
    fields_get := fun _ => []
    unconfigured_cmp := [1] }

/-- The `name` field of the fiscal year that `setup_company_accounts`
creates on `host_accounts` in year 2015 for company 1, template 7. -/
def fiscal_year_name_2015 : Option Val :=
  match setup_company_accounts host_accounts 2015 1 7 Option.none with
  | some tr => fiscal_year_created_name tr
  | Option.none => Option.none

/-- Python `f.startswith(pre)`: the first `len(pre)` characters of `f`
equal `pre` (character-list model, so concrete instances evaluate). -/
def starts_with (f pre : String) : Bool :=
  f.toList.take pre.toList.length == pre.toList

/-- The documented domain of `select_sale_user_level`'s `level` argument:
`False`, 'See all Leads', 'See Own Leads' or 'Manager'. -/
inductive SaleLevel where
  | levelFalse : SaleLevel
  | seeAllLeads : SaleLevel
  | seeOwnLeads : SaleLevel
  | manager : SaleLevel

/-- The group name a level denotes in the `sale` module's convention
(`False` is no group). -/
def sale_level_name : SaleLevel → Option String
  | SaleLevel.levelFalse => Option.none
  | SaleLevel.seeAllLeads => some "See all Leads"
  | SaleLevel.seeOwnLeads => some "See Own Leads"
  | SaleLevel.manager => some "Manager"

/-- The `crm_perm_map` fallback dict of `select_sale_user_level`. -/
def crm_perm_map : SaleLevel → Option String
  | SaleLevel.levelFalse => Option.none
  | SaleLevel.seeAllLeads => some "User: All Leads"
  | SaleLevel.seeOwnLeads => some "User: Own Leads Only"
  | SaleLevel.manager => some "Manager"

/-- `_app_group_id`: a falsy group name (`False`/empty) yields `False`;
otherwise resolve the category/group pair through `exactly_one_id`. -/
def app_group_id (host : Host) (category_name : String) (group_name : Option String) :
    Except Err Val :=
  match group_name with
  | some g =>
    if g = "" then Except.ok (Val.vbool false)
    else
      match exactly_one_id host "res.groups"
          [("category_id.name", "=", Val.vstr category_name),
           ("name", "=", Val.vstr g)] with
      | Except.error e => Except.error e
      | Except.ok (i, _) => Except.ok (Val.vint i)
  | Option.none => Except.ok (Val.vbool false)

/-- The `category_field_map` dict of `select_user_levels`: the form label
of each `sel_groups_`-prefixed user field, mapped to the field name
(dict-comprehension semantics: a later field with the same label wins). -/
def category_field_map (host : Host) : List (String × String) :=
  let user_fields := host.fields_get "res.users"
  let level_fields := (user_fields.map Prod.fst).filter
    (fun f => starts_with f "sel_groups_")
  level_fields.foldl
    (fun m f => alist_set m ((alist_lookup user_fields f).getD "") f) []

/-- The (field, value) pairs of the `field_changes` dict comprehension in
iteration order; a category with no level field raises `KeyError`, an
unresolvable group propagates the lookup error. -/
def resolve_level_changes (host : Host) (cfm : List (String × String)) :
    List (String × Option String) → Except Err (List (String × Val))
  | [] => Except.ok []
  | (category, group) :: rest =>
    match alist_lookup cfm category with
    | Option.none => Except.error (Err.keyError category)
    | some field =>
      match app_group_id host category group with
      | Except.error e => Except.error e
      | Except.ok v =>
        match resolve_level_changes host cfm rest with
        | Except.error e => Except.error e
        | Except.ok l => Except.ok ((field, v) :: l)

/-- `select_user_levels`: map each (category, group) change to the user's
level-selection field and the resolved group id, then write them all to
the user record. -/
def select_user_levels (host : Host) (user : Int)
    (changes : List (String × Option String)) : Except Err (List Op) :=
  match resolve_level_changes host (category_field_map host) changes with
  | Except.error e => Except.error e
  | Except.ok pairs =>
    let field_changes := pairs.foldl (fun d p => dict_set d p.1 p.2) []
    Except.ok [Op.write "res.users" [user] field_changes]

/-- `select_sale_user_level`: try the `sale`-module group name for the
'Sales' category; on `NoRecordsError` (only) retry once with the
`crm_perm_map` name; other exceptions propagate. -/
def select_sale_user_level (host : Host) (user : Int) (level : SaleLevel) :
    Except Err (List Op) :=
  match select_user_levels host user [("Sales", sale_level_name level)] with
  | Except.ok tr => Except.ok tr
  | Except.error e =>
    match e with
    | Err.noRecords _ => select_user_levels host user [("Sales", crm_perm_map level)]
    | e2 => Except.error e2

/-- A concrete host for the sale-level claim: one Sales level field on the
user form; `res.groups` searches find id 9 only under the crm-convention
name 'User: All Leads'. -/
def host_crm : Host :=
  { host_empty with
    fields_get := fun _ => [("sel_groups_13_14", "Sales"), ("login", "Login")]
    search := fun _ domain =>
      match domain with
      | [_, ("name", "=", Val.vstr g)] => if g = "User: All Leads" then [9] else []
      | _ => [] }

end Confutil

namespace Confutil

theorem alist_lookup_append {α : Type} (d1 d2 : List (String × α)) (k : String) :
    alist_lookup (d1 ++ d2) k =
      match alist_lookup d1 k with
      | some v => some v
      | Option.none => alist_lookup d2 k := by
  induction d1 with
  | nil => rfl
  | cons p rest ih =>
    obtain ⟨k1, v1⟩ := p
    by_cases h : k1 = k <;> simp [alist_lookup, h, ih]

theorem alist_lookup_filter_self {α : Type} (d : List (String × α)) (k : String) :
    alist_lookup (d.filter (fun p => !(p.1 == k))) k = Option.none := by
  induction d with
  | nil => rfl
  | cons p rest ih =>
    obtain ⟨k1, v1⟩ := p
    by_cases h1 : k1 = k
    · rw [List.filter_cons_of_neg (by simp [h1])]
      exact ih
    · rw [List.filter_cons_of_pos (by simp [h1])]
      simp [alist_lookup, h1, ih]

theorem alist_lookup_filter_ne {α : Type} (d : List (String × α)) (k k2 : String)
    (h : k2 ≠ k) :
    alist_lookup (d.filter (fun p => !(p.1 == k))) k2 = alist_lookup d k2 := by
  induction d with
  | nil => rfl
  | cons p rest ih =>
    obtain ⟨k1, v1⟩ := p
    by_cases h1 : k1 = k
    · subst h1
      rw [List.filter_cons_of_neg (by simp)]
      have h2 : ¬ k1 = k2 := fun h3 => h (h3.symm)
      simp [alist_lookup, h2, ih]
    · rw [List.filter_cons_of_pos (by simp [h1])]
      by_cases h2 : k1 = k2 <;> simp [alist_lookup, h2, ih]

theorem alist_lookup_set {α : Type} (d : List (String × α)) (k : String) (v : α) (k2 : String) :
    alist_lookup (alist_set d k v) k2 = if k2 = k then some v else alist_lookup d k2 := by
  by_cases h : k2 = k
  · subst h
    rw [if_pos rfl]
    simp only [alist_set]
    rw [alist_lookup_append, alist_lookup_filter_self]
    simp [alist_lookup]
  · rw [if_neg h]
    simp only [alist_set]
    rw [alist_lookup_append, alist_lookup_filter_ne d k k2 h]
    cases hd : alist_lookup d k2 with
    | none =>
      have h2 : ¬ k = k2 := fun h3 => h (h3.symm)
      simp [alist_lookup, h2]
    | some v1 => simp

theorem alist_lookup_update_not_mem {α : Type} (d ch : List (String × α)) (k : String)
    (h : k ∉ ch.map Prod.fst) :
    alist_lookup (alist_update d ch) k = alist_lookup d k := by
  induction ch generalizing d with
  | nil => rfl
  | cons p rest ih =>
    obtain ⟨k1, v1⟩ := p
    simp only [List.map_cons, List.mem_cons] at h
    push_neg at h
    simp only [alist_update, List.foldl_cons]
    have := ih (alist_set d k1 v1) h.2
    simp only [alist_update] at this
    rw [this, alist_lookup_set, if_neg h.1]

theorem alist_lookup_update_mem {α : Type} (d ch : List (String × α)) (k : String) (v : α)
    (hnd : (ch.map Prod.fst).Nodup) (hmem : (k, v) ∈ ch) :
    alist_lookup (alist_update d ch) k = some v := by
  induction ch generalizing d with
  | nil => cases hmem
  | cons p rest ih =>
    obtain ⟨k1, v1⟩ := p
    simp only [List.map_cons, List.nodup_cons] at hnd
    rcases List.mem_cons.mp hmem with h | h
    · have hk : k = k1 := congrArg Prod.fst h
      have hv : v = v1 := congrArg Prod.snd h
      subst hk
      subst hv
      simp only [alist_update, List.foldl_cons]
      have hnotin : k ∉ rest.map Prod.fst := hnd.1
      have := alist_lookup_update_not_mem (alist_set d k v) rest k hnotin
      simp only [alist_update] at this
      rw [this, alist_lookup_set, if_pos rfl]
    · simp only [alist_update, List.foldl_cons]
      exact ih (alist_set d k1 v1) hnd.2 h

theorem alist_lookup_none_of_not_mem {α : Type} (d : List (String × α)) (k : String)
    (h : k ∉ d.map Prod.fst) : alist_lookup d k = Option.none := by
  induction d with
  | nil => rfl
  | cons p rest ih =>
    obtain ⟨k1, v1⟩ := p
    simp only [List.map_cons, List.mem_cons] at h
    push_neg at h
    have h1 : ¬ k1 = k := fun h2 => h.1 h2.symm
    simp [alist_lookup, h1, ih h.2]

theorem not_mem_of_alist_lookup_none {α : Type} (d : List (String × α)) (k : String)
    (h : alist_lookup d k = Option.none) : k ∉ d.map Prod.fst := by
  induction d with
  | nil => simp
  | cons p rest ih =>
    obtain ⟨k1, v1⟩ := p
    by_cases h1 : k1 = k
    · simp [alist_lookup, h1] at h
    · simp only [alist_lookup, if_neg h1] at h
      simp only [List.map_cons, List.mem_cons]
      push_neg
      exact ⟨fun h2 => h1 h2.symm, ih h⟩

theorem mem_of_alist_lookup_some {α : Type} (d : List (String × α)) (k : String) (v : α)
    (h : alist_lookup d k = some v) : (k, v) ∈ d := by
  induction d with
  | nil => cases h
  | cons p rest ih =>
    obtain ⟨k1, v1⟩ := p
    by_cases h1 : k1 = k
    · subst h1
      simp [alist_lookup] at h
      subst h
      exact List.mem_cons_self _ _
    · simp only [alist_lookup, if_neg h1] at h
      exact List.mem_cons_of_mem _ (ih h)

/-- C2: if the search reports zero matching ids, `exactly_one_id` raises
`NoRecordsError` and returns no identifier. -/
theorem exactly_one_id_no_records (host : Host) (model : String) (domain : Domain)
    (h : host.search model domain = []) :
    exactly_one_id host model domain = Except.error (Err.noRecords domain) := by
  simp [exactly_one_id, maybe_id, h]

/-- Witness for C2 at a concrete host whose every search is empty. -/
theorem exactly_one_id_no_records_witness :
    exactly_one_id host_empty "account.tax" [("description", "=", Val.vstr "ST1")] =
      Except.error (Err.noRecords [("description", "=", Val.vstr "ST1")]) :=
  exactly_one_id_no_records host_empty "account.tax"
    [("description", "=", Val.vstr "ST1")] rfl

/-- C3: if the search reports exactly one matching id, `exactly_one_id`
returns that id and raises nothing. -/
theorem exactly_one_id_single (host : Host) (model : String) (domain : Domain) (i : Int)
    (h : host.search model domain = [i]) :
    exactly_one_id host model domain = Except.ok (i, [Op.search model domain]) := by
  simp [exactly_one_id, maybe_id, h]

/-- Witness for C3 at a concrete host whose every search yields id 42. -/
theorem exactly_one_id_single_witness :
    exactly_one_id host_one "account.account" [("code", "=", Val.vstr "1000")] =
      Except.ok (42, [Op.search "account.account" [("code", "=", Val.vstr "1000")]]) :=
  exactly_one_id_single host_one "account.account"
    [("code", "=", Val.vstr "1000")] 42 rfl

/-- C4: if the search reports more than one matching id, `maybe_id` raises
`TooManyRecordsError`, and so does `exactly_one_id`, which delegates to it. -/
theorem maybe_id_too_many (host : Host) (model : String) (domain : Domain)
    (h : (host.search model domain).length > 1) :
    maybe_id host model domain = Except.error (Err.tooManyRecords domain) ∧
    exactly_one_id host model domain = Except.error (Err.tooManyRecords domain) := by
  constructor
  · simp [maybe_id, h]
  · simp [exactly_one_id, maybe_id, h]

/-- Witness for C4 at a concrete host whose every search yields two ids. -/
theorem maybe_id_too_many_witness :
    maybe_id host_two "res.groups" [] = Except.error (Err.tooManyRecords []) ∧
    exactly_one_id host_two "res.groups" [] = Except.error (Err.tooManyRecords []) :=
  maybe_id_too_many host_two "res.groups" [] (by decide)

/-- C9: `maybe_id` maps zero hits to `none` (no exception), one hit to its
id, several hits to `TooManyRecordsError`; only the `exactly_one_id`
wrapper turns absence into an error. -/
theorem maybe_id_cardinality (host : Host) (model : String) (domain : Domain) :
    (host.search model domain = [] →
      maybe_id host model domain = Except.ok (Option.none, [Op.search model domain])) ∧
    (∀ i : Int, host.search model domain = [i] →
      maybe_id host model domain = Except.ok (some i, [Op.search model domain])) ∧
    ((host.search model domain).length > 1 →
      maybe_id host model domain = Except.error (Err.tooManyRecords domain)) ∧
    (host.search model domain = [] →
      exactly_one_id host model domain = Except.error (Err.noRecords domain)) := by
  refine ⟨fun h => ?_, fun i h => ?_, fun h => ?_, fun h => ?_⟩
  · simp [maybe_id, h]
  · simp [maybe_id, h]
  · simp [maybe_id, h]
  · simp [exactly_one_id, maybe_id, h]

/-- Witness for C9: the zero-hit clauses at `host_empty`, the one-hit
clause at `host_one`, the many-hit clause at `host_two`. -/
theorem maybe_id_cardinality_witness :
    maybe_id host_empty "res.users" [] = Except.ok (Option.none, [Op.search "res.users" []]) ∧
    maybe_id host_one "res.users" [] = Except.ok (some 42, [Op.search "res.users" []]) ∧
    maybe_id host_two "res.users" [] = Except.error (Err.tooManyRecords []) ∧
    exactly_one_id host_empty "res.users" [] = Except.error (Err.noRecords []) :=
  ⟨(maybe_id_cardinality host_empty "res.users" []).1 rfl,
   (maybe_id_cardinality host_one "res.users" []).2.1 42 rfl,
   (maybe_id_cardinality host_two "res.users" []).2.2.1 (by decide),
   (maybe_id_cardinality host_empty "res.users" []).2.2.2 rfl⟩

/-- C5: with no settings record in scope, `set_settings` creates exactly one
record from the form's computed defaults overlaid with the requested
changes (changes win), adds the company reference when scoped, and then
invokes the new record's execute step. -/
theorem set_settings_create_branch (host : Host) (name : String) (changes : Dict)
    (company : Option Int)
    (hnd : (changes.map Prod.fst).Nodup)
    (hsearch : host.search name (settings_domain company) = []) :
    set_settings host name changes company =
      Except.ok [Op.search name (settings_domain company),
        Op.defaultGet name ((host.fields_get name).map Prod.fst),
        Op.create name (settings_create_data host name changes company),
        Op.executeOp name
          [host.create_id name (settings_create_data host name changes company)]] ∧
    (∀ k v, dict_lookup changes k = some v → (company = Option.none ∨ k ≠ "company_id") →
      dict_lookup (settings_create_data host name changes company) k = some v) ∧
    (∀ k, dict_lookup changes k = Option.none → (company = Option.none ∨ k ≠ "company_id") →
      dict_lookup (settings_create_data host name changes company) k =
        dict_lookup (host.default_get name ((host.fields_get name).map Prod.fst)) k) ∧
    (∀ cid, company = some cid →
      dict_lookup (settings_create_data host name changes company) "company_id" =
        some (Val.vint cid)) := by
  refine ⟨?_, ?_, ?_, ?_⟩
  · simp [set_settings, maybe_id, hsearch]
  · intro k v hk hcomp
    have hmem := mem_of_alist_lookup_some changes k v hk
    cases company with
    | none =>
      simpa [settings_create_data, dict_update, dict_lookup] using
        alist_lookup_update_mem (host.default_get name ((host.fields_get name).map Prod.fst))
          changes k v hnd hmem
    | some cid =>
      have hne : k ≠ "company_id" := by
        rcases hcomp with h | h
        · exact Option.noConfusion h
        · exact h
      simp only [settings_create_data, dict_lookup, dict_set, dict_update]
      rw [alist_lookup_set, if_neg hne]
      exact alist_lookup_update_mem _ changes k v hnd hmem
  · intro k hk hcomp
    have hnmem := not_mem_of_alist_lookup_none changes k hk
    cases company with
    | none =>
      simpa [settings_create_data, dict_update, dict_lookup] using
        alist_lookup_update_not_mem (host.default_get name ((host.fields_get name).map Prod.fst))
          changes k hnmem
    | some cid =>
      have hne : k ≠ "company_id" := by
        rcases hcomp with h | h
        · exact Option.noConfusion h
        · exact h
      simp only [settings_create_data, dict_lookup, dict_set, dict_update]
      rw [alist_lookup_set, if_neg hne]
      exact alist_lookup_update_not_mem _ changes k hnmem
  · intro cid hcid
    subst hcid
    simp only [settings_create_data, dict_lookup, dict_set, dict_update]
    rw [alist_lookup_set, if_pos rfl]

/-- Witness for C5 on a concrete host with no pre-existing record. -/
theorem set_settings_create_branch_witness :
    set_settings host_settings "account.config.settings"
        [("default_sale_tax", Val.vint 9)] (some 5) =
      Except.ok [Op.search "account.config.settings" (settings_domain (some 5)),
        Op.defaultGet "account.config.settings" ["company_id", "default_sale_tax"],
        Op.create "account.config.settings"
          (settings_create_data host_settings "account.config.settings"
            [("default_sale_tax", Val.vint 9)] (some 5)),
        Op.executeOp "account.config.settings" [55]] ∧
    dict_lookup (settings_create_data host_settings "account.config.settings"
        [("default_sale_tax", Val.vint 9)] (some 5)) "default_sale_tax" =
      some (Val.vint 9) ∧
    dict_lookup (settings_create_data host_settings "account.config.settings"
        [("default_sale_tax", Val.vint 9)] (some 5)) "company_id" =
      some (Val.vint 5) :=
  ⟨(set_settings_create_branch host_settings "account.config.settings"
      [("default_sale_tax", Val.vint 9)] (some 5) (by simp) rfl).1,
   (set_settings_create_branch host_settings "account.config.settings"
      [("default_sale_tax", Val.vint 9)] (some 5) (by simp) rfl).2.1
      "default_sale_tax" (Val.vint 9) rfl (Or.inr (by decide)),
   (set_settings_create_branch host_settings "account.config.settings"
      [("default_sale_tax", Val.vint 9)] (some 5) (by simp) rfl).2.2.2 5 rfl⟩

/-- C6: with a settings record already in scope, `set_settings` writes only
the requested changes to it — no defaults are fetched and no record is
created — and then invokes that record's execute step. -/
theorem set_settings_write_branch (host : Host) (name : String) (changes : Dict)
    (company : Option Int) (sid : Int)
    (hsearch : host.search name (settings_domain company) = [sid]) :
    set_settings host name changes company =
      Except.ok [Op.search name (settings_domain company),
        Op.write name [sid] changes,
        Op.executeOp name [sid]] ∧
    (∀ m d, Op.create m d ∉
      [Op.search name (settings_domain company),
       Op.write name [sid] changes,
       Op.executeOp name [sid]]) ∧
    (∀ m fs, Op.defaultGet m fs ∉
      [Op.search name (settings_domain company),
       Op.write name [sid] changes,
       Op.executeOp name [sid]]) ∧
    (∀ m ids vals, Op.write m ids vals ∈
      [Op.search name (settings_domain company),
       Op.write name [sid] changes,
       Op.executeOp name [sid]] → vals = changes) := by
  refine ⟨?_, ?_, ?_, ?_⟩
  · simp [set_settings, maybe_id, hsearch]
  · intro m d
    simp
  · intro m fs
    simp
  · intro m ids vals h
    simp only [List.mem_cons, List.not_mem_nil, or_false] at h
    rcases h with h | h | h
    · exact Op.noConfusion h
    · injection h with h1 h2 h3
    · exact Op.noConfusion h

/-- Witness for C6 on a concrete host where the scoped record (id 77)
already exists. -/
theorem set_settings_write_branch_witness :
    set_settings host_settings_existing "sale.config.settings"
        [("group_multi_currency", Val.vbool true)] Option.none =
      Except.ok [Op.search "sale.config.settings" (settings_domain Option.none),
        Op.write "sale.config.settings" [77] [("group_multi_currency", Val.vbool true)],
        Op.executeOp "sale.config.settings" [77]] :=
  (set_settings_write_branch host_settings_existing "sale.config.settings"
    [("group_multi_currency", Val.vbool true)] Option.none 77 rfl).1

/-- C10: on the creation branch with a company scope, the created record's
`company_id` equals the given company's id, even when the requested
changes themselves bind `company_id`, because the company reference is
written after the changes are merged over the defaults. -/
theorem set_settings_company_ref_wins (host : Host) (name : String) (changes : Dict)
    (cid : Int)
    (hsearch : host.search name (settings_domain (some cid)) = []) :
    set_settings host name changes (some cid) =
      Except.ok [Op.search name (settings_domain (some cid)),
        Op.defaultGet name ((host.fields_get name).map Prod.fst),
        Op.create name (settings_create_data host name changes (some cid)),
        Op.executeOp name
          [host.create_id name (settings_create_data host name changes (some cid))]] ∧
    dict_lookup (settings_create_data host name changes (some cid)) "company_id" =
      some (Val.vint cid) := by
  constructor
  · simp [set_settings, maybe_id, hsearch]
  · simp only [settings_create_data, dict_lookup, dict_set, dict_update]
    rw [alist_lookup_set, if_pos rfl]

/-- Witness for C10: the requested changes bind `company_id` to 99, the
scope company is 5, and the created data carries 5. -/
theorem set_settings_company_ref_wins_witness :
    set_settings host_settings "account.config.settings"
        [("company_id", Val.vint 99)] (some 5) =
      Except.ok [Op.search "account.config.settings" (settings_domain (some 5)),
        Op.defaultGet "account.config.settings" ["company_id", "default_sale_tax"],
        Op.create "account.config.settings"
          (settings_create_data host_settings "account.config.settings"
            [("company_id", Val.vint 99)] (some 5)),
        Op.executeOp "account.config.settings" [55]] ∧
    dict_lookup (settings_create_data host_settings "account.config.settings"
        [("company_id", Val.vint 99)] (some 5)) "company_id" =
      some (Val.vint 5) :=
  set_settings_company_ref_wins host_settings "account.config.settings"
    [("company_id", Val.vint 99)] 5 rfl

theorem fiscal_year_data_lookup (host : Host) (cid : Int) (n c sd ed : String) :
    dict_lookup (fiscal_year_data host cid n c sd ed) "company_id" = some (Val.vint cid) ∧
    dict_lookup (fiscal_year_data host cid n c sd ed) "name" = some (Val.vstr n) ∧
    dict_lookup (fiscal_year_data host cid n c sd ed) "code" = some (Val.vstr c) ∧
    dict_lookup (fiscal_year_data host cid n c sd ed) "date_start" = some (Val.vstr sd) ∧
    dict_lookup (fiscal_year_data host cid n c sd ed) "date_stop" = some (Val.vstr ed) := by
  refine ⟨?_, ?_, ?_, ?_, ?_⟩ <;>
  · simp only [fiscal_year_data, dict_lookup, dict_update]
    exact alist_lookup_update_mem _ _ _ _ (by simp) (by simp)

theorem setup_company_accounts_run (host : Host) (today_year : Nat)
    (cid ctid : Int) (code_digits : Option Int) (spec : List Val)
    (hbank : dict_lookup
        (host.default_get "wizard.multi.charts.accounts" ["bank_accounts_id", "currency_id"])
        "bank_accounts_id" = some (Val.vlist spec))
    (hmem : cid ∈ host.unconfigured_cmp) :
    setup_company_accounts host today_year cid ctid code_digits =
      some [Op.getUnconfiguredCmp,
        Op.defaultGet "wizard.multi.charts.accounts" ["bank_accounts_id", "currency_id"],
        Op.onchangeChartTemplateId ctid,
        Op.create "wizard.multi.charts.accounts"
          (chart_create_data host cid ctid code_digits spec),
        Op.executeOp "wizard.multi.charts.accounts"
          [host.create_id "wizard.multi.charts.accounts"
            (chart_create_data host cid ctid code_digits spec)],
        Op.defaultGet "account.fiscalyear" ["state", "company_id"],
        Op.create "account.fiscalyear"
          (fiscal_year_data host cid (year_str today_year) ("FY" ++ year_str today_year)
            (year_str today_year ++ "-01-01") (year_str today_year ++ "-12-31")),
        Op.createPeriod "account.fiscalyear"
          [host.create_id "account.fiscalyear"
            (fiscal_year_data host cid (year_str today_year) ("FY" ++ year_str today_year)
              (year_str today_year ++ "-01-01") (year_str today_year ++ "-12-31"))]] := by
  simp [setup_company_accounts, setup_chart_of_accounts, create_fiscal_year, hbank, hmem]

/-- C7: the bootstrap acts if and only if the company is in the
host-reported unconfigured set: a member company gets the chart wizard run
and then the fiscal year created with its periods, the wizard execute
strictly preceding the fiscal-year create; a non-member company triggers
no wizard, create or write operation at all. -/
theorem setup_company_accounts_gated (host : Host) (today_year : Nat)
    (cid ctid : Int) (code_digits : Option Int) (spec : List Val)
    (hbank : dict_lookup
        (host.default_get "wizard.multi.charts.accounts" ["bank_accounts_id", "currency_id"])
        "bank_accounts_id" = some (Val.vlist spec)) :
    (cid ∉ host.unconfigured_cmp →
      setup_company_accounts host today_year cid ctid code_digits =
        some [Op.getUnconfiguredCmp]) ∧
    (cid ∈ host.unconfigured_cmp →
      setup_company_accounts host today_year cid ctid code_digits =
        some [Op.getUnconfiguredCmp,
          Op.defaultGet "wizard.multi.charts.accounts" ["bank_accounts_id", "currency_id"],
          Op.onchangeChartTemplateId ctid,
          Op.create "wizard.multi.charts.accounts"
            (chart_create_data host cid ctid code_digits spec),
          Op.executeOp "wizard.multi.charts.accounts"
            [host.create_id "wizard.multi.charts.accounts"
              (chart_create_data host cid ctid code_digits spec)],
          Op.defaultGet "account.fiscalyear" ["state", "company_id"],
          Op.create "account.fiscalyear"
            (fiscal_year_data host cid (year_str today_year) ("FY" ++ year_str today_year)
              (year_str today_year ++ "-01-01") (year_str today_year ++ "-12-31")),
          Op.createPeriod "account.fiscalyear"
            [host.create_id "account.fiscalyear"
              (fiscal_year_data host cid (year_str today_year) ("FY" ++ year_str today_year)
                (year_str today_year ++ "-01-01") (year_str today_year ++ "-12-31"))]]) ∧
    (cid ∈ host.unconfigured_cmp →
      ∀ tr, setup_company_accounts host today_year cid ctid code_digits = some tr →
        ∃ i j, i < j ∧
          tr.get? i = some (Op.executeOp "wizard.multi.charts.accounts"
            [host.create_id "wizard.multi.charts.accounts"
              (chart_create_data host cid ctid code_digits spec)]) ∧
          tr.get? j = some (Op.create "account.fiscalyear"
            (fiscal_year_data host cid (year_str today_year) ("FY" ++ year_str today_year)
              (year_str today_year ++ "-01-01") (year_str today_year ++ "-12-31")))) := by
  refine ⟨?_, ?_, ?_⟩
  · intro h
    simp [setup_company_accounts, h]
  · intro h
    exact setup_company_accounts_run host today_year cid ctid code_digits spec hbank h
  · intro h tr htr
    rw [setup_company_accounts_run host today_year cid ctid code_digits spec hbank h] at htr
    injection htr with htr
    subst htr
    exact ⟨4, 6, by norm_num, rfl, rfl⟩

/-- Witness for C7 on `host_accounts`: company 2 is not in the
unconfigured set `[1]` and nothing happens; company 1 is and the full
bootstrap trace is produced. -/
theorem setup_company_accounts_gated_witness :
    setup_company_accounts host_accounts 2015 2 7 Option.none =
      some [Op.getUnconfiguredCmp] ∧
    setup_company_accounts host_accounts 2015 1 7 Option.none =
      some [Op.getUnconfiguredCmp,
        Op.defaultGet "wizard.multi.charts.accounts" ["bank_accounts_id", "currency_id"],
        Op.onchangeChartTemplateId 7,
        Op.create "wizard.multi.charts.accounts"
          (chart_create_data host_accounts 1 7 Option.none [Val.vstr "Bank"]),
        Op.executeOp "wizard.multi.charts.accounts"
          [host_accounts.create_id "wizard.multi.charts.accounts"
            (chart_create_data host_accounts 1 7 Option.none [Val.vstr "Bank"])],
        Op.defaultGet "account.fiscalyear" ["state", "company_id"],
        Op.create "account.fiscalyear"
          (fiscal_year_data host_accounts 1 (year_str 2015) ("FY" ++ year_str 2015)
            (year_str 2015 ++ "-01-01") (year_str 2015 ++ "-12-31")),
        Op.createPeriod "account.fiscalyear"
          [host_accounts.create_id "account.fiscalyear"
            (fiscal_year_data host_accounts 1 (year_str 2015) ("FY" ++ year_str 2015)
              (year_str 2015 ++ "-01-01") (year_str 2015 ++ "-12-31"))]] :=
  ⟨(setup_company_accounts_gated host_accounts 2015 2 7 Option.none
      [Val.vstr "Bank"] rfl).1 (by decide),
   (setup_company_accounts_gated host_accounts 2015 1 7 Option.none
      [Val.vstr "Bank"] rfl).2.1 (by decide)⟩

/-- C1 as stated is false: in year 2015, for unconfigured company 1, the
fiscal-year record the bootstrap creates carries name "2015", not
"FY2015" (the "FY2015" string goes to the `code` field instead). -/
theorem fiscal_year_name_counterexample :
    fiscal_year_name_2015 = some (Val.vstr "2015") ∧ "2015" ≠ "FY2015" :=
  ⟨rfl, by decide⟩

/-- C1 (amended): for a company in the host-reported unconfigured set the
bootstrap creates a fiscal year running 1 Jan to 31 Dec of the current
year, with name "<year>" and code "FY<year>". -/
theorem setup_company_accounts_fiscal_year_fields (host : Host) (today_year : Nat)
    (cid ctid : Int) (code_digits : Option Int) (spec : List Val)
    (hbank : dict_lookup
        (host.default_get "wizard.multi.charts.accounts" ["bank_accounts_id", "currency_id"])
        "bank_accounts_id" = some (Val.vlist spec))
    (hmem : cid ∈ host.unconfigured_cmp) :
    ∃ tr, setup_company_accounts host today_year cid ctid code_digits = some tr ∧
      Op.create "account.fiscalyear"
        (fiscal_year_data host cid (year_str today_year) ("FY" ++ year_str today_year)
          (year_str today_year ++ "-01-01") (year_str today_year ++ "-12-31")) ∈ tr ∧
      dict_lookup
        (fiscal_year_data host cid (year_str today_year) ("FY" ++ year_str today_year)
          (year_str today_year ++ "-01-01") (year_str today_year ++ "-12-31")) "name" =
        some (Val.vstr (year_str today_year)) ∧
      dict_lookup
        (fiscal_year_data host cid (year_str today_year) ("FY" ++ year_str today_year)
          (year_str today_year ++ "-01-01") (year_str today_year ++ "-12-31")) "code" =
        some (Val.vstr ("FY" ++ year_str today_year)) ∧
      dict_lookup
        (fiscal_year_data host cid (year_str today_year) ("FY" ++ year_str today_year)
          (year_str today_year ++ "-01-01") (year_str today_year ++ "-12-31")) "date_start" =
        some (Val.vstr (year_str today_year ++ "-01-01")) ∧
      dict_lookup
        (fiscal_year_data host cid (year_str today_year) ("FY" ++ year_str today_year)
          (year_str today_year ++ "-01-01") (year_str today_year ++ "-12-31")) "date_stop" =
        some (Val.vstr (year_str today_year ++ "-12-31")) := by
  refine ⟨_, setup_company_accounts_run host today_year cid ctid code_digits spec hbank hmem,
    ?_, ?_, ?_, ?_, ?_⟩
  · simp
  · exact (fiscal_year_data_lookup host cid (year_str today_year) ("FY" ++ year_str today_year)
      (year_str today_year ++ "-01-01") (year_str today_year ++ "-12-31")).2.1
  · exact (fiscal_year_data_lookup host cid (year_str today_year) ("FY" ++ year_str today_year)
      (year_str today_year ++ "-01-01") (year_str today_year ++ "-12-31")).2.2.1
  · exact (fiscal_year_data_lookup host cid (year_str today_year) ("FY" ++ year_str today_year)
      (year_str today_year ++ "-01-01") (year_str today_year ++ "-12-31")).2.2.2.1
  · exact (fiscal_year_data_lookup host cid (year_str today_year) ("FY" ++ year_str today_year)
      (year_str today_year ++ "-01-01") (year_str today_year ++ "-12-31")).2.2.2.2

/-- Witness for the amended C1 on `host_accounts` in year 2015. -/
theorem setup_company_accounts_fiscal_year_fields_witness :
    dict_lookup
      (fiscal_year_data host_accounts 1 (year_str 2015) ("FY" ++ year_str 2015)
        (year_str 2015 ++ "-01-01") (year_str 2015 ++ "-12-31")) "name" =
      some (Val.vstr (year_str 2015)) ∧
    dict_lookup
      (fiscal_year_data host_accounts 1 (year_str 2015) ("FY" ++ year_str 2015)
        (year_str 2015 ++ "-01-01") (year_str 2015 ++ "-12-31")) "code" =
      some (Val.vstr ("FY" ++ year_str 2015)) ∧
    dict_lookup
      (fiscal_year_data host_accounts 1 (year_str 2015) ("FY" ++ year_str 2015)
        (year_str 2015 ++ "-01-01") (year_str 2015 ++ "-12-31")) "date_start" =
      some (Val.vstr (year_str 2015 ++ "-01-01")) ∧
    dict_lookup
      (fiscal_year_data host_accounts 1 (year_str 2015) ("FY" ++ year_str 2015)
        (year_str 2015 ++ "-01-01") (year_str 2015 ++ "-12-31")) "date_stop" =
      some (Val.vstr (year_str 2015 ++ "-12-31")) := by
  obtain ⟨tr, h1, h2, h3, h4, h5, h6⟩ :=
    setup_company_accounts_fiscal_year_fields host_accounts 2015 1 7 Option.none
      [Val.vstr "Bank"] rfl (by decide)
  exact ⟨h3, h4, h5, h6⟩

/-- C8: `select_sale_user_level` first tries the `sale`-module group name;
a successful attempt is final, a `NoRecordsError` triggers exactly one
retry with the `crm_perm_map` name, and every other exception propagates
without retry; the fallback mapping is False→False,
'See all Leads'→'User: All Leads', 'See Own Leads'→'User: Own Leads Only',
'Manager'→'Manager'. -/
theorem select_sale_user_level_fallback (host : Host) (user : Int) (level : SaleLevel) :
    (∀ tr, select_user_levels host user [("Sales", sale_level_name level)] = Except.ok tr →
      select_sale_user_level host user level = Except.ok tr) ∧
    (∀ d, select_user_levels host user [("Sales", sale_level_name level)] =
        Except.error (Err.noRecords d) →
      select_sale_user_level host user level =
        select_user_levels host user [("Sales", crm_perm_map level)]) ∧
    (∀ d, select_user_levels host user [("Sales", sale_level_name level)] =
        Except.error (Err.tooManyRecords d) →
      select_sale_user_level host user level = Except.error (Err.tooManyRecords d)) ∧
    (∀ k, select_user_levels host user [("Sales", sale_level_name level)] =
        Except.error (Err.keyError k) →
      select_sale_user_level host user level = Except.error (Err.keyError k)) ∧
    (crm_perm_map SaleLevel.levelFalse = Option.none ∧
     crm_perm_map SaleLevel.seeAllLeads = some "User: All Leads" ∧
     crm_perm_map SaleLevel.seeOwnLeads = some "User: Own Leads Only" ∧
     crm_perm_map SaleLevel.manager = some "Manager" ∧
     sale_level_name SaleLevel.levelFalse = Option.none ∧
     sale_level_name SaleLevel.seeAllLeads = some "See all Leads" ∧
     sale_level_name SaleLevel.seeOwnLeads = some "See Own Leads" ∧
     sale_level_name SaleLevel.manager = some "Manager") := by
  refine ⟨?_, ?_, ?_, ?_, rfl, rfl, rfl, rfl, rfl, rfl, rfl, rfl⟩
  · intro tr h
    simp [select_sale_user_level, h]
  · intro d h
    simp [select_sale_user_level, h]
  · intro d h
    simp [select_sale_user_level, h]
  · intro k h
    simp [select_sale_user_level, h]

/-- Witness for C8 on `host_crm`: the sale-module name 'See all Leads'
finds no group, so the call falls back to the crm-module name. -/
theorem select_sale_user_level_fallback_witness :
    select_user_levels host_crm 2 [("Sales", sale_level_name SaleLevel.seeAllLeads)] =
      Except.error (Err.noRecords
        [("category_id.name", "=", Val.vstr "Sales"),
         ("name", "=", Val.vstr "See all Leads")]) ∧
    select_sale_user_level host_crm 2 SaleLevel.seeAllLeads =
      select_user_levels host_crm 2 [("Sales", crm_perm_map SaleLevel.seeAllLeads)] :=
  ⟨rfl,
   (select_sale_user_level_fallback host_crm 2 SaleLevel.seeAllLeads).2.1
     [("category_id.name", "=", Val.vstr "Sales"),
      ("name", "=", Val.vstr "See all Leads")] rfl⟩

end Confutil
